import Mathlib

/-!
Shallow embedding of `bin/cmd.js` from the module-best-practices repository.

The source program is:

  var fs = require('fs')
  var pager = require('default-pager')
  module.exports = fs.createReadStream(__dirname + '/../README.md')
  if (require.main === module)
    module.exports.pipe(pager())

We model the filesystem, Node's `fs.createReadStream` (which returns a handle
immediately and surfaces open failures on the handle rather than throwing),
the pager sink, and the module-load semantics including the
`require.main === module` entry-point guard.
-/

/-- Error kinds the filesystem open can produce: `ENOENT` is the
ResourceNotFound kind, `EACCES` the AccessDenied kind. -/
inductive FsError where
  | ENOENT
  | EACCES
  deriving Repr, DecidableEq

/-- A model filesystem: an association list from paths to byte contents,
plus the set of paths whose permissions forbid reading. -/
structure FileSystem where
  files : List (String × List Nat)
  unreadable : List String
  deriving Repr, DecidableEq

/-- Opening a path for reading: `ENOENT` when the path is absent,
`EACCES` when present but not readable, otherwise the byte contents. -/
def FileSystem.read (fs : FileSystem) (path : String) : Except FsError (List Nat) :=
  match fs.files.lookup path with
  | none => .error .ENOENT
  | some bytes => if fs.unreadable.contains path then .error .EACCES else .ok bytes

instance {ε α : Type} [DecidableEq ε] [DecidableEq α] : DecidableEq (Except ε α) := fun x y =>
  match x, y with
  | .ok a, .ok b =>
      if h : a = b then .isTrue (by rw [h]) else .isFalse (by simp [h])
  | .error a, .error b =>
      if h : a = b then .isTrue (by rw [h]) else .isFalse (by simp [h])
  | .ok _, .error _ => .isFalse (by simp)
  | .error _, .ok _ => .isFalse (by simp)

/-- A readable stream handle as produced by `fs.createReadStream`: the open
result (bytes, or the pending error that will be emitted on consumption) and
a sequential read cursor. -/
structure ReadStream where
  source : Except FsError (List Nat)
  pos : Nat
  deriving Repr, DecidableEq

/-- `fs.createReadStream(path)`: always returns a fresh handle with the
cursor at the start; an open failure is carried on the handle (Node emits it
as an error event on first consumption, it is not thrown at creation). -/
def createReadStream (fs : FileSystem) (path : String) : ReadStream :=
  { source := fs.read path, pos := 0 }

/-- Consuming the stream to exhaustion: emits every byte from the cursor to
the end of the file, in file order, and advances the cursor past the end;
a handle carrying an open error emits the error instead of content. -/
def ReadStream.readAll (s : ReadStream) : Except FsError (List Nat) × ReadStream :=
  match s.source with
  | .error e => (.error e, s)
  | .ok bytes => (.ok (bytes.drop s.pos), { s with pos := bytes.length })

/-- The Document path computed by the source: `__dirname + '/../README.md'`,
a pure function of the directory containing the loaded module file. -/
def documentPath (dirname : String) : String :=
  dirname ++ "/../README.md"

/-- The human-readable diagnostic Node prints on the standard error channel
when the unhandled stream error crashes the process. -/
def errorMessage (e : FsError) (path : String) : String :=
  match e with
  | .ENOENT => "Error: ENOENT: no such file or directory, open " ++ path
  | .EACCES => "Error: EACCES: permission denied, open " ++ path

/-- Observable outcome of loading the module `bin/cmd.js`. `exports` is the
value of `module.exports`; `openedPaths` records the filesystem opens
performed during load; `pagerOut` is `none` when no pager was spawned and
`some bs` when a pager was spawned and received exactly the bytes `bs`;
`exit` is `none` when module load does not terminate the process (library
mode) and `some c` when the process terminates with code `c`; `stderr` is
the diagnostic written to the standard error channel. -/
structure ModuleResult where
  exports : ReadStream
  openedPaths : List String
  pagerOut : Option (List Nat)
  exit : Option Nat
  stderr : String
  deriving Repr, DecidableEq

/-- Loading `bin/cmd.js`. `dirname` is `__dirname`; `cwd` is the invoking
process working directory and `argv` its command-line arguments — the
source never reads either, so neither occurs in the body; `isMain` is
`require.main === module`. The read stream is created unconditionally at
load; only the `pipe(pager())` step is guarded. In entry-point mode a
successful pipe forwards all bytes to the pager and the process later exits
normally with code 0; a stream whose open failed emits an unhandled error
event, which crashes the process with a nonzero code and a diagnostic on
standard error while the pager has received nothing. -/
def runModule (fs : FileSystem) (dirname cwd : String) (argv : List String)
    (isMain : Bool) : ModuleResult :=
  let path := documentPath dirname
  let stream := createReadStream fs path
  if isMain then
    match stream.source with
    | .ok bytes =>
        { exports := { stream with pos := bytes.length }
          openedPaths := [path]
          pagerOut := some bytes
          exit := some 0
          stderr := "" }
    | .error e =>
        { exports := stream
          openedPaths := [path]
          pagerOut := some []
          exit := some 1
          stderr := errorMessage e path }
  else
    { exports := stream
      openedPaths := [path]
      pagerOut := none
      exit := none
      stderr := "" }

/-- A tiny concrete filesystem used to instantiate theorems: the Document
is present at the path the module computes from `__dirname = "/pkg/bin"`. -/
def sampleFs : FileSystem :=
  { files := [("/pkg/bin/../README.md", [35, 32, 109, 98, 112])], unreadable := [] }

/-- A filesystem with no Document at all. -/
def emptyFs : FileSystem :=
  { files := [], unreadable := [] }

/-- A filesystem where the Document exists but is unreadable. -/
def lockedFs : FileSystem :=
  { files := [("/pkg/bin/../README.md", [35, 32, 109])],
    unreadable := ["/pkg/bin/../README.md"] }

/-- The diagnostic message is never the empty string: the process emits a
human-readable error line, not silence. -/
theorem errorMessage_ne_empty (e : FsError) (p : String) : errorMessage e p ≠ "" := by
  intro h
  have hl := congrArg String.length h
  cases e <;> simp [errorMessage, String.length_append] at hl <;>
    exact absurd hl.1 (by decide)

/-- C1: in entry-point mode with the Document present, every byte of the
Document is forwarded to the pager, in original file order, with no loss,
duplication or transformation — the pager receives exactly the Document
bytes. -/
theorem entry_forwards_document (fs : FileSystem) (d cwd : String) (argv : List String)
    (bytes : List Nat) (h : fs.read (documentPath d) = .ok bytes) :
    (runModule fs d cwd argv true).pagerOut = some bytes := by
  simp [runModule, createReadStream, h]

theorem entry_forwards_document_witness :
    sampleFs.read (documentPath "/pkg/bin") = .ok [35, 32, 109, 98, 112]
    ∧ (runModule sampleFs "/pkg/bin" "/home/user" [] true).pagerOut
        = some [35, 32, 109, 98, 112] :=
  ⟨by decide,
   entry_forwards_document sampleFs "/pkg/bin" "/home/user" [] [35, 32, 109, 98, 112]
     (by decide)⟩

/-- C2: in library mode no pager is spawned, no display output is produced,
no process exit is triggered, nothing is written to the error channel, and
the module export is exactly the stream handle over the Document path. -/
theorem library_no_display (fs : FileSystem) (d cwd : String) (argv : List String) :
    (runModule fs d cwd argv false).pagerOut = none
    ∧ (runModule fs d cwd argv false).exit = none
    ∧ (runModule fs d cwd argv false).stderr = ""
    ∧ (runModule fs d cwd argv false).exports = createReadStream fs (documentPath d) := by
  simp [runModule]

/-- C3: the library surface is the single exported stream handle, and when
the Document is readable that stream emits the raw Document contents once,
start to end, and afterwards signals end-of-stream (emits no further
content). -/
theorem library_stream_emits_document_once (fs : FileSystem) (d cwd : String)
    (argv : List String) (bytes : List Nat) (h : fs.read (documentPath d) = .ok bytes) :
    ((runModule fs d cwd argv false).exports.readAll.1 = .ok bytes)
    ∧ ((runModule fs d cwd argv false).exports.readAll.2.readAll.1 = .ok []) := by
  refine ⟨?_, ?_⟩ <;> simp [runModule, createReadStream, ReadStream.readAll, h]

theorem library_stream_emits_document_once_witness :
    sampleFs.read (documentPath "/pkg/bin") = .ok [35, 32, 109, 98, 112]
    ∧ ((runModule sampleFs "/pkg/bin" "/tmp" [] false).exports.readAll.1
        = .ok [35, 32, 109, 98, 112])
    ∧ ((runModule sampleFs "/pkg/bin" "/tmp" [] false).exports.readAll.2.readAll.1
        = .ok []) :=
  ⟨by decide,
   (library_stream_emits_document_once sampleFs "/pkg/bin" "/tmp" []
      [35, 32, 109, 98, 112] (by decide)).1,
   (library_stream_emits_document_once sampleFs "/pkg/bin" "/tmp" []
      [35, 32, 109, 98, 112] (by decide)).2⟩

/-- C4: when the Document is absent at its fixed path, the stream open
fails with the ResourceNotFound kind (`ENOENT`), and in entry-point mode
the process exits with a non-zero code, writes a non-empty human-readable
diagnostic to the standard error channel, and the pager displays nothing. -/
theorem missing_file_cli_fails (fs : FileSystem) (d cwd : String) (argv : List String)
    (h : fs.files.lookup (documentPath d) = none) :
    ((runModule fs d cwd argv true).exports.source = .error .ENOENT)
    ∧ ((runModule fs d cwd argv true).exit = some 1)
    ∧ ((runModule fs d cwd argv true).stderr = errorMessage .ENOENT (documentPath d))
    ∧ ((runModule fs d cwd argv true).stderr ≠ "")
    ∧ ((runModule fs d cwd argv true).pagerOut = some []) := by
  have hr : fs.read (documentPath d) = .error .ENOENT := by
    simp [FileSystem.read, h]
  refine ⟨?_, ?_, ?_, ?_, ?_⟩ <;>
    simp [runModule, createReadStream, hr, errorMessage_ne_empty]

theorem missing_file_cli_fails_witness :
    emptyFs.files.lookup (documentPath "/pkg/bin") = none
    ∧ ((runModule emptyFs "/pkg/bin" "/tmp" [] true).exit = some 1) :=
  ⟨by decide,
   (missing_file_cli_fails emptyFs "/pkg/bin" "/tmp" [] (by decide)).2.1⟩

/-- C5: in library mode an unopenable Document (missing or permission
denied) surfaces as an error on the returned stream handle — consuming it
yields the error — while no process exit is triggered and no pager runs. -/
theorem library_error_on_handle (fs : FileSystem) (d cwd : String) (argv : List String)
    (e : FsError) (h : fs.read (documentPath d) = .error e) :
    ((runModule fs d cwd argv false).exports.source = .error e)
    ∧ ((runModule fs d cwd argv false).exports.readAll.1 = .error e)
    ∧ ((runModule fs d cwd argv false).exit = none)
    ∧ ((runModule fs d cwd argv false).pagerOut = none) := by
  refine ⟨?_, ?_, ?_, ?_⟩ <;> simp [runModule, createReadStream, ReadStream.readAll, h]

theorem library_error_on_handle_witness :
    lockedFs.read (documentPath "/pkg/bin") = .error .EACCES
    ∧ ((runModule lockedFs "/pkg/bin" "/tmp" [] false).exports.readAll.1
        = .error .EACCES)
    ∧ ((runModule lockedFs "/pkg/bin" "/tmp" [] false).exit = none) :=
  ⟨by decide,
   (library_error_on_handle lockedFs "/pkg/bin" "/tmp" [] .EACCES (by decide)).2.1,
   (library_error_on_handle lockedFs "/pkg/bin" "/tmp" [] .EACCES (by decide)).2.2.1⟩

/-- C6: two independent invocations of the content-stream operation on the
same filesystem produce byte-identical output, and that output equals the
on-disk Document contents. -/
theorem stream_read_idempotent (fs : FileSystem) (p : String) (bytes : List Nat)
    (h : fs.read p = .ok bytes) :
    ((createReadStream fs p).readAll.1 = (createReadStream fs p).readAll.1)
    ∧ ((createReadStream fs p).readAll.1 = .ok bytes) := by
  exact ⟨rfl, by simp [createReadStream, ReadStream.readAll, h]⟩

theorem stream_read_idempotent_witness :
    sampleFs.read "/pkg/bin/../README.md" = .ok [35, 32, 109, 98, 112]
    ∧ ((createReadStream sampleFs "/pkg/bin/../README.md").readAll.1
        = .ok [35, 32, 109, 98, 112]) :=
  ⟨by decide,
   (stream_read_idempotent sampleFs "/pkg/bin/../README.md" [35, 32, 109, 98, 112]
      (by decide)).2⟩

/-- C7: each invocation creates a fresh handle with the cursor at the
start; once the stream is exhausted, every further read emits no content
(end-of-stream), and a fresh invocation is what yields the content again. -/
theorem stream_not_restartable (fs : FileSystem) (p : String) (bytes : List Nat)
    (h : fs.read p = .ok bytes) :
    ((createReadStream fs p).pos = 0)
    ∧ ((createReadStream fs p).readAll.1 = .ok bytes)
    ∧ (∀ s : ReadStream, s.source = .ok bytes → bytes.length ≤ s.pos →
        s.readAll.1 = .ok [] ∧ s.readAll.2.readAll.1 = .ok [])
    ∧ ((createReadStream fs p).readAll.2.pos = bytes.length) := by
  refine ⟨rfl, by simp [createReadStream, ReadStream.readAll, h], ?_, ?_⟩
  · intro s hs hpos
    constructor <;> simp [ReadStream.readAll, hs, List.drop_eq_nil_of_le hpos]
  · simp [createReadStream, ReadStream.readAll, h]

theorem stream_not_restartable_witness :
    sampleFs.read "/pkg/bin/../README.md" = .ok [35, 32, 109, 98, 112]
    ∧ ((createReadStream sampleFs "/pkg/bin/../README.md").readAll.2.readAll.1
        = .ok []) := by
  refine ⟨by decide, ?_⟩
  have h := stream_not_restartable sampleFs "/pkg/bin/../README.md"
    [35, 32, 109, 98, 112] (by decide)
  exact (h.2.2.1 (createReadStream sampleFs "/pkg/bin/../README.md").readAll.2
    (by decide) (by decide)).1

/-- C8: the Document path is the fixed string computed from the directory
of the loaded module (`__dirname + "/../README.md"`), and the whole
observable result of loading the module is independent of the invoking
process working directory. -/
theorem path_independent_of_cwd (fs : FileSystem) (d cwd1 cwd2 : String)
    (argv : List String) (isMain : Bool) :
    documentPath d = d ++ "/../README.md"
    ∧ runModule fs d cwd1 argv isMain = runModule fs d cwd2 argv isMain :=
  ⟨rfl, rfl⟩

/-- C9: the command succeeds (exit code 0) with zero command-line arguments
when the Document is readable, and any two invocations differing only in
their command-line arguments have identical observable results — arguments
are never read, so none can cause a fault. -/
theorem args_never_change_behavior (fs : FileSystem) (d cwd : String)
    (argv1 argv2 : List String) (isMain : Bool) (bytes : List Nat)
    (h : fs.read (documentPath d) = .ok bytes) :
    ((runModule fs d cwd [] true).exit = some 0)
    ∧ runModule fs d cwd argv1 isMain = runModule fs d cwd argv2 isMain := by
  exact ⟨by simp [runModule, createReadStream, h], rfl⟩

theorem args_never_change_behavior_witness :
    sampleFs.read (documentPath "/pkg/bin") = .ok [35, 32, 109, 98, 112]
    ∧ ((runModule sampleFs "/pkg/bin" "/tmp" [] true).exit = some 0) :=
  ⟨by decide,
   (args_never_change_behavior sampleFs "/pkg/bin" "/tmp" ["--weird", "-x"] []
      true [35, 32, 109, 98, 112] (by decide)).1⟩

/-- C10: the stream open over the Document happens at module load in both
modes — importing in library mode already opens the file and the export is
that opened handle — while only the pipe-to-pager step is gated on being
the top-level program (a pager is spawned exactly in entry-point mode). -/
theorem open_not_gated_by_main (fs : FileSystem) (d cwd : String) (argv : List String) :
    ((runModule fs d cwd argv false).openedPaths = [documentPath d])
    ∧ ((runModule fs d cwd argv false).exports = createReadStream fs (documentPath d))
    ∧ ((runModule fs d cwd argv false).pagerOut = none)
    ∧ ((runModule fs d cwd argv true).openedPaths = [documentPath d])
    ∧ ((runModule fs d cwd argv true).pagerOut.isSome = true) := by
  refine ⟨by simp [runModule], by simp [runModule], by simp [runModule],
    ?_, ?_⟩ <;>
  · unfold runModule
    cases hr : (createReadStream fs (documentPath d)).source <;> simp [hr]
